import Mathlib

/-!
Verification of the ClarifyAgent research-orchestration engine.

This file gives a shallow embedding, in Lean 4, of the decision logic of the
ClarifyAgent repository (clarifier, orchestrator, planner fallback, worker
pool, research worker failure handling, URL validation, research-plan
construction, confidence scoring and the synthesizer truncation policy), and
proves or refutes the specification claims about those components.

External effects (LLM completions, web search, page fetches, wall-clock
timing) are passed in as explicit data: each embedded function is the pure
function of its inputs that the corresponding Python function computes once
the replies of its collaborators are fixed.  Python floats are modelled as
exact rationals; IEEE rounding is abstracted away.
-/

namespace ClarifyAgent

/-! ## Python-style string primitives (over `List Char`) -/

/-- `chPre pat s`: `pat` is a leading segment of `s` (Python `str.startswith`). -/
def chPre : List Char → List Char → Bool
  | [], _ => true
  | _ :: _, [] => false
  | a :: as, b :: bs => a == b && chPre as bs

/-- `chSub pat s`: `pat` occurs contiguously inside `s` (Python `in`). -/
def chSub (pat : List Char) : List Char → Bool
  | [] => chPre pat []
  | c :: rest => chPre pat (c :: rest) || chSub pat rest

/-- `strSub hay pat`: Python `pat in hay`. -/
def strSub (hay pat : String) : Bool := chSub pat.toList hay.toList

/-- Python `hay.startswith(pat)`. -/
def strStarts (hay pat : String) : Bool := chPre pat.toList hay.toList

/-- Python `hay.endswith(pat)`. -/
def strEnds (hay pat : String) : Bool := chPre pat.toList.reverse hay.toList.reverse

/-- Python `str.lower()` (ASCII case folding; the tokens the repo lower-cases
    are ASCII or Chinese, and Chinese has no case). -/
def strLower (s : String) : String := String.mk (s.toList.map Char.toLower)

/-- Python `str.strip()`: whitespace removed from both ends. -/
def pyStrip (s : String) : String :=
  String.mk ((s.toList.dropWhile Char.isWhitespace).reverse.dropWhile
    Char.isWhitespace).reverse

/-- `scanTail f s`: `f` holds of some tail of `s` (used to model `re.search`). -/
def scanTail (f : List Char → Bool) : List Char → Bool
  | [] => f []
  | c :: rest => f (c :: rest) || scanTail f rest

/-- Python `repr` of a plain string: single-quoted, or double-quoted when the
    string contains a single quote but no double quote (escape sequences for
    mixed quotes are elided; the repo only passes plain text through `str`). -/
def pyRepr (s : String) : String :=
  let sq : Char := Char.ofNat 39
  let dq : Char := Char.ofNat 34
  if s.toList.contains sq && !(s.toList.contains dq) then
    String.mk (dq :: (s.toList ++ [dq]))
  else
    String.mk (sq :: (s.toList ++ [sq]))

/-- Python `str` of a list of strings, e.g. `str(["a"]) = "['a']"`. -/
def pyStrList (xs : List String) : String :=
  "[" ++ String.intercalate ", " (xs.map pyRepr) ++ "]"

/-! ## Data model (`schema.py`) -/

inductive NextAction
  | START_RESEARCH
  | NEED_CLARIFICATION
  | CONFIRM_PLAN
  | VERIFY_TOPIC
  | CANNOT_DO
deriving Repr, DecidableEq

structure Task where
  goal : String := ""
  research_focus : List String := []
deriving Repr, DecidableEq, Inhabited

structure Block where
  reason : Option String := none
  alternatives : List String := []
deriving Repr, DecidableEq, Inhabited

/-- The `clarification` dict attached to a `Plan` (built by `_convert_to_plan`). -/
structure Clarification where
  question : String
  options : List String
  missing_info : String
  open_ended : Bool
deriving Repr, DecidableEq

structure Plan where
  next_action : NextAction
  task : Task := {}
  assumptions : List String := []
  confirm_prompt : Option String := none
  clarification : Option Clarification := none
  unknown_topic : Option String := none
  search_query : Option String := none
  block : Block := {}
  why : String := ""
  confidence : ℚ := 1/2
deriving Repr, DecidableEq

structure Source where
  title : String
  url : String
  snippet : Option String := none
  source_type : Option String := none
deriving Repr, DecidableEq

structure Citation where
  text : String
  sources : List Source
deriving Repr, DecidableEq

structure Subtask where
  id : Int
  focus : String
  queries : List String
  parallel : Bool := true
deriving Repr, DecidableEq

structure SubtaskResult where
  subtask_id : Int
  focus : String
  findings : List String
  sources : List Source
  confidence : ℚ
deriving Repr, DecidableEq

structure ResearchResult where
  goal : String
  research_focus : List String
  findings : List (String × SubtaskResult) := []
  synthesis : String := ""
  citations : List Citation := []
deriving Repr, DecidableEq

/-! ## Universal clarifier data (`universal_clarifier.py`) -/

inductive ClarifyAction
  | PROCEED
  | NEED_CLARIFICATION
  | CONFIRM
  | REJECT
deriving Repr, DecidableEq

structure ClarificationQuestion where
  question : String
  options : List String := []
  dimension : String := ""
  info_gain : ℚ := 1/2
  required : Bool := true
deriving Repr, DecidableEq

/-- The `parsed_intent` dict, restricted to the keys the code reads. -/
structure ParsedIntent where
  subject : String := ""
  action : String := ""
  output_format : String := ""
  constraints : List String := []
deriving Repr, DecidableEq, Inhabited

structure ClarifyResult where
  action : ClarifyAction
  confidence : ℚ := 1/2
  reason : String := ""
  parsed_intent : ParsedIntent := {}
  assumptions : List String := []
  questions : List ClarificationQuestion := []
  confirm_message : String := ""
deriving Repr, DecidableEq

/-- The safe default `ClarifyResult` built by `_parse_response` when the model
    reply cannot be parsed as JSON. -/
def parse_failure_result (errMsg : String) : ClarifyResult :=
  { action := .NEED_CLARIFICATION
    confidence := 0
    reason := "解析失败: " ++ errMsg
    questions := [{ question := "请问您具体想要做什么？"
                    dimension := "what"
                    info_gain := 9/10 }] }

/-! ## `clarifier.py`: `_convert_to_plan` and `assess_input` post-processing -/

/-- The task draft dict, restricted to the keys `_convert_to_plan` reads
    (`none` means the key is absent). -/
structure TaskDraft where
  goal : Option String := none
  research_focus : List String := []
deriving Repr, DecidableEq, Inhabited

/-- The `action_map` table of `_convert_to_plan`. -/
def action_map : ClarifyAction → NextAction
  | .PROCEED => .START_RESEARCH
  | .NEED_CLARIFICATION => .NEED_CLARIFICATION
  | .CONFIRM => .CONFIRM_PLAN
  | .REJECT => .CANNOT_DO

/-- Builds the `clarification` dict from the model's question list
    (`None` when the list is empty). -/
def mkClarification : List ClarificationQuestion → Option Clarification
  | [] => none
  | q :: _ =>
      some { question := q.question
             options := q.options
             missing_info := if q.dimension.isEmpty then "project_details" else q.dimension
             open_ended := q.options.length == 0 }

/-- `_convert_to_plan` from `clarifier.py`. -/
def convert_to_plan (result : ClarifyResult) (task_draft : TaskDraft) : Plan :=
  let subject := result.parsed_intent.subject
  let action := result.parsed_intent.action
  let output_format := result.parsed_intent.output_format
  let goal_parts : List String :=
    (if !subject.isEmpty then [subject] else []) ++
    (if !action.isEmpty then [action] else []) ++
    (if !output_format.isEmpty && !(strSub action output_format) then
        ["(" ++ output_format ++ ")"] else [])
  let goal :=
    if !goal_parts.isEmpty then String.intercalate " - " goal_parts
    else task_draft.goal.getD "研究任务"
  let research_focus :=
    if task_draft.research_focus.isEmpty then
      let fc0 : List String := if !output_format.isEmpty then [output_format] else []
      let fc1 := fc0 ++
        (if !action.isEmpty && !(strSub (pyStrList fc0) action) then [action] else [])
      let fc2 := fc1 ++ result.parsed_intent.constraints
      if fc2.isEmpty then ["综合研究"] else fc2
    else task_draft.research_focus
  { next_action := action_map result.action
    task := { goal := goal
              research_focus :=
                if research_focus.isEmpty then ["综合研究"] else research_focus.take 5 }
    confidence := result.confidence
    why := result.reason
    assumptions := result.assumptions
    clarification := mkClarification result.questions
    confirm_prompt :=
      if result.action = .CONFIRM then some result.confirm_message else none }

/-- The post-processing override at the end of `assess_input`: the decision
    rules forcing every reply into `CONFIRM_PLAN` or `NEED_CLARIFICATION`
    (the `START_RESEARCH` assignment in the highest-confidence branch is
    commented out in the source). -/
def assess_post (result : ClarifyResult) (plan : Plan) : Plan :=
  if result.action = .PROCEED ∧ (95 : ℚ)/100 ≤ plan.confidence then
    { plan with next_action := .CONFIRM_PLAN }
  else if result.action = .PROCEED ∧ (7 : ℚ)/10 ≤ plan.confidence then
    { plan with next_action := .CONFIRM_PLAN }
  else if result.action = .CONFIRM ∧ (6 : ℚ)/10 ≤ plan.confidence then
    { plan with next_action := .CONFIRM_PLAN }
  else if result.action = .NEED_CLARIFICATION then
    { plan with next_action := .NEED_CLARIFICATION }
  else
    { plan with next_action := .NEED_CLARIFICATION }

/-- The `Plan` returned by `assess_input` as a function of the parsed model
    reply and the task draft (the LLM call itself is external; an unparseable
    reply enters here as `parse_failure_result`). -/
def assess_input (result : ClarifyResult) (task_draft : TaskDraft) : Plan :=
  assess_post result (convert_to_plan result task_draft)

/-! ## `planner.py`: `decompose_task` -/

/-- One entry of the planner's parsed `subtasks` JSON array (`none` = key absent). -/
structure RawSubtask where
  id : Option Int := none
  focus : Option String := none
  queries : Option (List String) := none
deriving Repr, DecidableEq

/-- `decompose_task`: converts the parsed planner reply into `Subtask`s.
    `plannerOut = .error _` models `_extract_json` raising on a non-JSON
    reply, which `decompose_task` propagates to its caller.  No validation of
    `focus` or `queries` is performed; missing keys default to `""` / `[]`
    and a missing `id` defaults to the current list length plus one. -/
def decompose_task (plannerOut : Except String (List RawSubtask)) :
    Except String (List Subtask) :=
  plannerOut.map fun raws =>
    raws.foldl
      (fun acc st =>
        acc ++ [{ id := st.id.getD ((acc.length : Int) + 1)
                  focus := st.focus.getD ""
                  queries := st.queries.getD []
                  parallel := true }])
      []

/-! ## `orchestrator.py`: `Orchestrator.run` -/

/-- The enumerated comprehension of the fallback: subtask `i+1` for the
    `i`-th focus entry, with the single query `"{goal} {focus}"`. -/
def fallbackAux (goal : String) (i : ℕ) : List String → List Subtask
  | [] => []
  | f :: fs =>
      { id := (i : Int) + 1
        focus := f
        queries := [goal ++ " " ++ f]
        parallel := true } :: fallbackAux goal (i + 1) fs

/-- The fallback in `Orchestrator.run` when the planner returned zero
    subtasks: one subtask per entry of the *first three* `research_focus`
    entries (`research_focus[:3]`). -/
def fallbackSubtasks (task : Task) : List Subtask :=
  fallbackAux task.goal 0 (task.research_focus.take 3)

/-- The `START_RESEARCH` branch of `Orchestrator.run` (reached after the
    clarifier step): plan decomposition with fallback, the sequential
    per-subtask executor loop that keeps only non-`None` results, and the
    synthesizer call.  A planner parse error is caught by the surrounding
    `try`/`except` and yields `(plan, None)`. -/
def runResearch (plan : Plan)
    (plannerOut : Except String (List RawSubtask))
    (executorOut : Subtask → Option SubtaskResult)
    (synthOut : List SubtaskResult → ResearchResult) :
    Plan × Option ResearchResult :=
  if plan.next_action = .START_RESEARCH then
    match decompose_task plannerOut with
    | .error _ => (plan, none)
    | .ok sts0 =>
      let sts := if sts0.isEmpty then fallbackSubtasks plan.task else sts0
      if sts.isEmpty then (plan, none)
      else
        let results := (sts.map executorOut).filterMap id
        if results.isEmpty then (plan, none)
        else (plan, some (synthOut results))
  else (plan, none)

/-- `Orchestrator.run` as a function of the external replies it consumes:
    the clarifier reply `r1`, the re-assessment reply `r2` (used only in the
    `VERIFY_TOPIC` branch), whether the topic-verification web search
    succeeded, the planner reply, the per-subtask executor outcomes
    (`none` = `execute_single` swallowed an exception) and the synthesizer. -/
def Orchestrator.run (r1 r2 : ClarifyResult) (task_draft : TaskDraft)
    (verifySearchOk : Bool)
    (plannerOut : Except String (List RawSubtask))
    (executorOut : Subtask → Option SubtaskResult)
    (synthOut : List SubtaskResult → ResearchResult) :
    Plan × Option ResearchResult :=
  let plan := assess_input r1 task_draft
  if plan.next_action = .NEED_CLARIFICATION then (plan, none)
  else if plan.next_action = .VERIFY_TOPIC then
    if verifySearchOk then
      runResearch (assess_input r2 task_draft) plannerOut executorOut synthOut
    else (plan, none)
  else runResearch plan plannerOut executorOut synthOut

/-! ## `agents/pool.py`: `SubagentPool.execute_parallel` -/

/-- One batch loop of `execute_parallel` for `len(subtasks) > num_parallel`:
    slices of size `n`, each gathered with `return_exceptions=True` and
    exceptions replaced by `None` (`outcome st = none` models the worker
    raising on `st`).  The `n = 0` branch corresponds to Python's
    `range(0, len, 0)` raising `ValueError`, reachable only with a pool of
    width zero. -/
def execBatches (outcome : Subtask → Option SubtaskResult) :
    ℕ → List Subtask → List (Option SubtaskResult)
  | _, [] => []
  | 0, _ :: _ => []
  | n + 1, s :: rest =>
      ((s :: rest).take (n + 1)).map outcome ++
        execBatches outcome (n + 1) ((s :: rest).drop (n + 1))
termination_by _ l => l.length
decreasing_by
  simp only [List.length_drop, List.length_cons]
  omega

/-- `SubagentPool.execute_parallel`: `num_parallel = min |subtasks| max_parallel`;
    a single gather when everything fits in one batch, the batch loop
    otherwise.  `max_parallel` is the effective width after Python's
    `max_parallel or self.max_parallel` defaulting (5 by default, never 0 in
    a configured pool). -/
def execute_parallel (outcome : Subtask → Option SubtaskResult)
    (subtasks : List Subtask) (max_parallel : ℕ) : List (Option SubtaskResult) :=
  if subtasks.isEmpty then []
  else
    let num_parallel := min subtasks.length max_parallel
    if num_parallel < subtasks.length then execBatches outcome num_parallel subtasks
    else subtasks.map outcome

/-! ## `agents/subagent.py`: URL validation -/

/-- The literal placeholder tokens of `is_valid_source_url`, checked against
    the lower-cased URL (braces written as `\x7b`/`\x7d`). -/
def placeholder_patterns : List String :=
  ["$1", "$2", "$3", "$4", "$5",
   "\x7bid\x7d", "\x7bslug\x7d", "\x7btitle\x7d", "\x7bdate\x7d", "\x7byear\x7d",
   "\x7bmonth\x7d", "\x7b\x7b", "\x7d\x7d",
   "[id]", "[slug]", "[article]",
   "<id>", "<slug>",
   "%s", "%d",
   ":id", ":slug"]

/-- The path endings of the `incomplete_endings` list. -/
def incomplete_endings : List String :=
  ["/articles", "/article", "/papers", "/paper", "/publications", "/publication",
   "/doi", "/abstract", "/pmc", "/pubmed", "/content", "/view", "/detail", "/item"]

/-- The bare directory names rejected as a final path component. -/
def directory_names : List String :=
  ["search", "results", "list", "index", "home", "articles", "papers"]

/-- Skip to the first `"://"` and return what follows (the URL is already
    known to start with `http://` or `https://`). -/
def afterScheme : List Char → List Char
  | ':' :: '/' :: '/' :: rest => rest
  | _ :: rest => afterScheme rest
  | [] => []

/-- `path.rstrip('/')`. -/
def rstripSlash (p : List Char) : List Char := (p.reverse.dropWhile (· == '/')).reverse

/-- `hay.endswith(pat)` for char lists. -/
def chEnds (hay : List Char) (pat : String) : Bool :=
  chPre pat.toList.reverse hay.reverse

/-- `path.split('/')` (keeping empty segments, filtered by the caller). -/
def splitSlashAux (cur : List Char) : List Char → List (List Char)
  | [] => [cur.reverse]
  | '/' :: rest => cur.reverse :: splitSlashAux [] rest
  | c :: rest => splitSlashAux (c :: cur) rest

/-- `[p for p in path.split('/') if p]`. -/
def pathParts (p : List Char) : List (List Char) :=
  (splitSlashAux [] p).filter fun seg => !seg.isEmpty

/-- `re.search(r'/PMC\d+', path, re.IGNORECASE)`. -/
def hasPmcId (path : List Char) : Bool :=
  scanTail (fun s => match s with
    | '/' :: a :: b :: c :: d :: _ =>
        a.toLower == 'p' && b.toLower == 'm' && c.toLower == 'c' && d.isDigit
    | _ => false) path

/-- `re.search(r'/\d+', path)`. -/
def hasSlashDigit (path : List Char) : Bool :=
  scanTail (fun s => match s with
    | '/' :: d :: _ => d.isDigit
    | _ => false) path

/-- After one digit of `\d+`, skip further digits and require `/`. -/
def skipDigitsSlash : List Char → Bool
  | [] => false
  | c :: rest => if c.isDigit then skipDigitsSlash rest else c == '/'

/-- `re.search(r'10\.\d+/', url)`. -/
def hasDoiPattern (s : List Char) : Bool :=
  scanTail (fun t => match t with
    | '1' :: '0' :: '.' :: d :: rest => d.isDigit && skipDigitsSlash rest
    | _ => false) s

/-- `re.search(r'\d{4}\.\d+', path)`. -/
def hasArxivId (path : List Char) : Bool :=
  scanTail (fun t => match t with
    | a :: b :: c :: d :: '.' :: e :: _ =>
        a.isDigit && b.isDigit && c.isDigit && d.isDigit && e.isDigit
    | _ => false) path

/-- `re.search(r'\$\d+', url)`. -/
def hasDollarDigit (s : List Char) : Bool :=
  scanTail (fun t => match t with
    | '$' :: d :: _ => d.isDigit
    | _ => false) s

/-- The `netloc` of the modelled `urlparse` for an `http(s)` URL: everything
    between `"//"` and the next `/`, `?` or `#`. -/
def urlNetloc (url : String) : List Char :=
  (afterScheme url.toList).takeWhile fun c => !(c == '/' || c == '?' || c == '#')

/-- The `parsed.path.rstrip('/')` used by the validator: from the end of the
    netloc to the next `?` or `#`, trailing slashes removed (the rarely-used
    `;params` split is elided). -/
def urlPath (url : String) : List Char :=
  rstripSlash
    (((afterScheme url.toList).dropWhile
        fun c => !(c == '/' || c == '?' || c == '#')).takeWhile
      fun c => !(c == '?' || c == '#'))

/-- `is_valid_source_url` from `agents/subagent.py` (the unreachable
    `except` branch around `urlparse` is elided). -/
def is_valid_source_url (url0 : String) : Bool :=
  let url := pyStrip url0
  if !(strStarts url "http://" || strStarts url "https://") then false
  else if placeholder_patterns.any (fun pat => strSub (strLower url) pat) then false
  else if hasDollarDigit url.toList then false
  else
    let netloc := urlNetloc url
    let path := urlPath url
    if netloc.isEmpty || !(netloc.contains '.') then false
    else if incomplete_endings.any (fun e => chEnds path e) then false
    else
      let netloc_lower := netloc.map Char.toLower
      if chSub "pmc.ncbi.nlm.nih.gov".toList netloc_lower && !hasPmcId path then false
      else if chSub "pubmed.ncbi.nlm.nih.gov".toList netloc_lower && !hasSlashDigit path then
        false
      else if chSub "doi.org".toList netloc_lower && !hasDoiPattern url.toList then false
      else if chSub "arxiv.org".toList netloc_lower && !hasArxivId path then false
      else
        match (pathParts path).getLast? with
        | some lastPart =>
            !(directory_names.any fun d => lastPart.map Char.toLower == d.toList)
        | none => true

/-- `query.split('&')` (keeping empty segments, as Python does). -/
def splitAmpAux (cur : List Char) : List Char → List (List Char)
  | [] => [cur.reverse]
  | '&' :: rest => cur.reverse :: splitAmpAux [] rest
  | c :: rest => splitAmpAux (c :: cur) rest

/-- `'&'.join(params)`. -/
def joinAmp : List (List Char) → List Char
  | [] => []
  | [p] => p
  | p :: q :: rest => p ++ '&' :: joinAmp (q :: rest)

/-- `clean_url` from `agents/subagent.py`: drop tracking query parameters;
    an empty surviving query (and the fragment) are dropped with it. -/
def clean_url (url : String) : String :=
  let cs := url.toList
  let noFrag := cs.takeWhile (· != '#')
  let beforeQ := noFrag.takeWhile (· != '?')
  let query := (noFrag.dropWhile (· != '?')).drop 1
  if query.isEmpty then url
  else
    let tracking := ["utm_", "fbclid", "gclid", "ref=", "source="]
    let clean_params := (splitAmpAux [] query).filter fun p =>
      !(tracking.any fun t => chPre t.toList (p.map Char.toLower))
    if clean_params.isEmpty then String.mk beforeQ
    else String.mk (beforeQ ++ '?' :: joinAmp clean_params)

/-! ## `agents/subagent.py`: `Subagent.search` -/

/-- A raw source dict in the worker's final JSON. -/
structure RawSource where
  title : String := ""
  url : String := ""
  snippet : String := ""
  source_type : Option String := none
deriving Repr, DecidableEq

/-- The worker's parsed final JSON, restricted to the keys the code reads. -/
structure AgentOutput where
  key_findings : List String := []
  sources : List RawSource := []
  confidence : Option ℚ := none
deriving Repr, DecidableEq

/-- Outcome of the agent run inside `Subagent.search`, including the JSON
    extraction of its final output. -/
inductive AgentRunOutcome
  | constructError (msg : String)
  | softExit
  | hardTimeout
  | maxTurns
  | runError (msg : String)
  | parseError (preview : String)
  | finished (data : AgentOutput)
deriving Repr, DecidableEq

/-- Snippet truncation on the worker's success path.  The source slices to
    500 characters (plus an ellipsis) whenever the snippet is longer than
    200 — embedded exactly as written. -/
def truncWorkerSnippet (s : String) : String :=
  if 200 < s.length then String.mk (s.toList.take 500) ++ "..." else s

/-- The source-validation loop of the success path: the first 8 raw sources
    are considered, invalid URLs dropped, titles capped at 100 characters
    (empty becoming `"Unknown"`), URLs cleaned. -/
def processSources (raws : List RawSource) : List Source :=
  ((raws.take 8).filter fun src => is_valid_source_url src.url).map fun src =>
    { title := if (String.mk (src.title.toList.take 100)).isEmpty then "Unknown"
               else String.mk (src.title.toList.take 100)
      url := clean_url src.url
      snippet := some (truncWorkerSnippet src.snippet)
      source_type := src.source_type }

/-- The findings cap of the success path: at most 5, each at most 300 chars. -/
def processFindings (fs : List String) : List String :=
  (fs.take 5).map fun f =>
    if 300 < f.length then String.mk (f.toList.take 300) ++ "..." else f

/-- `Subagent.search` as a function of the subtask and the agent-run outcome.
    `Except.error` models an exception escaping to the caller, which happens
    exactly when `_create_agent` raises: that call sits above the `try`
    block.  Wall-clock figures interpolated into failure messages are
    elided. -/
def Subagent.search (subtask : Subtask) :
    AgentRunOutcome → Except String SubtaskResult
  | .constructError msg => .error msg
  | .softExit => .ok
      { subtask_id := subtask.id, focus := subtask.focus
        findings := ["研究因时间限制提前结束，已收集可用信息"]
        sources := [], confidence := 1/2 }
  | .hardTimeout => .ok
      { subtask_id := subtask.id, focus := subtask.focus
        findings := ["执行超时，LLM API 调用可能卡住"]
        sources := [], confidence := 3/10 }
  | .maxTurns => .ok
      { subtask_id := subtask.id, focus := subtask.focus
        findings := ["研究达到最大搜索次数限制，已收集可用信息"]
        sources := [], confidence := 1/2 }
  | .runError msg => .ok
      { subtask_id := subtask.id, focus := subtask.focus
        findings := ["研究失败: " ++ String.mk (msg.toList.take 100)]
        sources := [], confidence := 0 }
  | .parseError preview => .ok
      { subtask_id := subtask.id, focus := subtask.focus
        findings := ["研究失败: " ++
          String.mk (("Subagent did not return JSON: " ++ preview).toList.take 100)]
        sources := [], confidence := 0 }
  | .finished data => .ok
      { subtask_id := subtask.id, focus := subtask.focus
        findings := processFindings data.key_findings
        sources := processSources data.sources
        confidence := data.confidence.getD (1/2) }

/-! ## `tools/intelligent_research.py` -/

inductive ResearchScenario
  | RETROSYNTHESIS
  | PIPELINE_EVALUATION
  | CLINICAL_PIPELINE
  | MARKET_ANALYSIS
  | REGULATORY_REVIEW
  | ACADEMIC_RESEARCH
  | COMPETITIVE_INTELLIGENCE
deriving Repr, DecidableEq

/-- The scenario keyword table, in source order.  The upper-case keywords
    (`R&D`, `FDA`, `EMA`) are kept verbatim: they are matched against the
    lower-cased text and therefore never hit, exactly as in the source. -/
def scenario_keywords : List (ResearchScenario × List String) :=
  [(.RETROSYNTHESIS,
    ["合成路线", "逆合成", "synthesis", "retrosynthesis",
     "反应条件", "制备方法", "preparation", "synthetic route"]),
   (.PIPELINE_EVALUATION,
    ["管线", "pipeline", "立项", "投资", "商业化",
     "R&D", "研发投入", "市场潜力", "valuation"]),
   (.CLINICAL_PIPELINE,
    ["临床试验", "clinical trial", "临床数据", "efficacy",
     "安全性", "safety", "疗效", "endpoint"]),
   (.REGULATORY_REVIEW,
    ["FDA", "EMA", "监管", "审评", "approval",
     "获批", "指导原则", "guidance"])]

/-- `detect_scenario(query, {})` as called by `create_research_plan`:
    the context text is `str({}) = "{}"`; the highest strictly-greater score
    wins, the default is `ACADEMIC_RESEARCH`. -/
def detect_scenario (query : String) : ResearchScenario :=
  let combined := strLower query ++ " " ++ "\x7b\x7d"
  (scenario_keywords.foldl
    (fun acc p =>
      let score := (p.2.filter fun kw => strSub combined kw).length
      if acc.1 < score then (score, p.1) else acc)
    (0, .ACADEMIC_RESEARCH)).2

structure SourceRule where
  domains : List String
  content_indicators : List String
  jina_priority : ℕ
  reason : String
deriving Repr, DecidableEq

/-- The `SCENARIO_RULES` table (only three scenarios have rules). -/
def scenario_rules : ResearchScenario → List SourceRule
  | .RETROSYNTHESIS =>
      [{ domains := ["reaxys.com", "scifinder.cas.org", "organic-chemistry.org"]
         content_indicators := ["synthesis", "reaction", "yield", "procedure"]
         jina_priority := 5, reason := "合成路线需要完整的反应步骤和条件" },
       { domains := ["patents.google.com", "uspto.gov", "espacenet.ops.epo.org"]
         content_indicators := ["patent", "synthesis", "preparation", "example"]
         jina_priority := 4, reason := "专利中包含详细的合成实施例" },
       { domains := ["pubmed.ncbi.nlm.nih.gov", "acs.org", "rsc.org"]
         content_indicators := ["total synthesis", "synthetic route", "methodology"]
         jina_priority := 4, reason := "学术文献提供方法学细节" }]
  | .PIPELINE_EVALUATION =>
      [{ domains := ["sec.gov", "investors.*.com"]
         content_indicators := ["10-K", "10-Q", "pipeline", "R&D", "clinical"]
         jina_priority := 5, reason := "财务文件包含管线投资和商业化策略" },
       { domains := ["clinicaltrials.gov"]
         content_indicators := ["phase", "enrollment", "endpoint", "status"]
         jina_priority := 4, reason := "临床试验详情反映开发进度和竞争态势" },
       { domains := ["fda.gov", "ema.europa.eu"]
         content_indicators := ["guidance", "breakthrough", "designation", "approval"]
         jina_priority := 4, reason := "监管文件明确开发路径和要求" }]
  | .CLINICAL_PIPELINE =>
      [{ domains := ["clinicaltrials.gov"]
         content_indicators := ["protocol", "inclusion", "exclusion", "primary endpoint"]
         jina_priority := 5, reason := "完整试验协议包含关键设计信息" },
       { domains := ["nejm.org", "thelancet.com", "jco.org"]
         content_indicators := ["clinical trial", "efficacy", "safety", "survival"]
         jina_priority := 5, reason := "顶级期刊的临床数据分析最权威" },
       { domains := ["fda.gov"]
         content_indicators := ["ODAC", "advisory committee", "review", "approval"]
         jina_priority := 4, reason := "FDA审评文件提供监管视角" }]
  | _ => []

/-- The `HIGH_VALUE_DOMAINS` table, in source (dict-insertion) order. -/
def high_value_domains : List (String × String) :=
  [("pubmed.ncbi.nlm.nih.gov", "PubMed全文"),
   ("nejm.org", "新英格兰医学杂志"),
   ("thelancet.com", "柳叶刀"),
   ("nature.com", "Nature系列"),
   ("science.org", "Science"),
   ("cell.com", "Cell系列"),
   ("fda.gov", "FDA官方文件"),
   ("ema.europa.eu", "EMA文件"),
   ("ich.org", "ICH指导原则"),
   ("sec.gov", "SEC财务文件"),
   ("investors.*.com", "投资者关系页面"),
   ("clinicaltrials.gov", "临床试验注册信息"),
   ("patents.google.com", "专利全文"),
   ("reaxys.com", "化学数据库"),
   ("scifinder.cas.org", "CAS数据库")]

/-- After `investors` and one any-character: `[^.]+` then any character then
    `com`. -/
def anyThenCom : List Char → Bool
  | _ :: rest => chPre ['c', 'o', 'm'] rest
  | [] => false

def nonDotThenCom : List Char → Bool
  | c :: rest => c != '.' && (anyThenCom rest || nonDotThenCom rest)
  | [] => false

def investorsAt : List Char → Bool
  | 'i' :: 'n' :: 'v' :: 'e' :: 's' :: 't' :: 'o' :: 'r' :: 's' :: _ :: rest =>
      nonDotThenCom rest
  | _ => false

/-- `re.search("investors.[^.]+.com", url)` — the pattern produced by the
    `'*' → '[^.]+'` substitution; its unescaped dots match any character. -/
def investorsWildcard (url : List Char) : Bool := scanTail investorsAt url

structure JinaDecision where
  use : Bool
  priority : ℕ
  reason : String
deriving Repr, DecidableEq

/-- The high-value-domain scan of `should_use_jina`.  The only wildcard
    pattern in the table is `investors.*.com`; patterns containing `*` are
    matched by the regex it compiles to, the rest by substring. -/
def findHighValue (url : String) : Option (String × String) :=
  high_value_domains.find? fun p =>
    if strSub p.1 "*" then investorsWildcard url.toList else strSub url p.1

/-- The first scenario rule whose domains hit the URL or whose content
    indicators hit the lower-cased `title ++ " " ++ snippet`. -/
def findRule (rules : List SourceRule) (url content : String) : Option SourceRule :=
  rules.find? fun rule =>
    rule.domains.any (fun d => strSub url d) ||
      rule.content_indicators.any (fun i => strSub content i)

/-- `should_use_jina` from `IntelligentResearchSelector`. -/
def should_use_jina (scenario : ResearchScenario) (url title snippet : String) :
    JinaDecision :=
  match findHighValue url with
  | some p => { use := true, priority := 5, reason := "高价值域名: " ++ p.2 }
  | none =>
    match findRule (scenario_rules scenario) url (strLower (title ++ " " ++ snippet)) with
    | some rule => { use := true, priority := rule.jina_priority, reason := rule.reason }
    | none =>
      if snippet.length < 300 then
        { use := true, priority := 2
          reason := "信息片段较短，需要完整内容以获取更多细节" }
      else { use := false, priority := 0, reason := "Serper信息充足" }

structure SearchHit where
  url : String := ""
  title : String := ""
  snippet : String := ""
deriving Repr, DecidableEq

structure JinaTarget where
  url : String
  title : String
  priority : ℕ
  reason : String
  rank : ℕ
deriving Repr, DecidableEq

structure ResearchPlan where
  scenario : ResearchScenario
  strategy : String
  serper_results : List (SearchHit × ℕ)
  jina_targets : List JinaTarget
deriving Repr, DecidableEq

/-- The comparison induced by Python's ascending stable sort with
    `key=lambda x: (x['priority'], -x['rank'])`. -/
def jinaLe (a b : JinaTarget) : Bool :=
  a.priority < b.priority || (a.priority == b.priority && b.rank ≤ a.rank)

/-- Stable insertion into a `jinaLe`-ascending list. -/
def insertSorted (x : JinaTarget) : List JinaTarget → List JinaTarget
  | [] => [x]
  | y :: ys => if jinaLe y x then y :: insertSorted x ys else x :: y :: ys

/-- Stable ascending sort (Python `sorted`). -/
def isort : List JinaTarget → List JinaTarget
  | [] => []
  | x :: xs => insertSorted x (isort xs)

/-- `create_research_plan` from `IntelligentResearchSelector`, including the
    `min(0, …)` cap computed in all three `max_results` tiers. -/
def create_research_plan (query : String) (search_results : List SearchHit)
    (max_results : ℕ) : ResearchPlan :=
  let scenario := detect_scenario query
  let analysis_limit := min search_results.length (max max_results 15)
  let pair := ((search_results.take analysis_limit).enum).foldl
    (fun (acc : List (SearchHit × ℕ) × List JinaTarget) p =>
      let d := should_use_jina scenario p.2.url p.2.title p.2.snippet
      if d.use && 2 ≤ d.priority then
        (acc.1,
         acc.2 ++ [{ url := p.2.url, title := p.2.title, priority := d.priority
                     reason := d.reason, rank := p.1 + 1 }])
      else (acc.1 ++ [(p.2, p.1 + 1)], acc.2))
    ([], [])
  let max_jina_targets :=
    if max_results ≤ 8 then min 0 pair.2.length
    else if max_results ≤ 15 then min 0 pair.2.length
    else min 0 pair.2.length
  { scenario := scenario
    strategy := "hybrid"
    serper_results := pair.1
    jina_targets := (isort pair.2).take max_jina_targets }

/-! ## `tools/enhanced_research.py`: `_calculate_confidence` -/

/-- The per-scenario weight table (`scenario_weights`); every enum value is
    covered, so the `.get` default `0.75` is unreachable. -/
def scenario_weight : ResearchScenario → ℚ
  | .RETROSYNTHESIS => 85/100
  | .PIPELINE_EVALUATION => 75/100
  | .CLINICAL_PIPELINE => 9/10
  | .MARKET_ANALYSIS => 7/10
  | .REGULATORY_REVIEW => 85/100
  | .ACADEMIC_RESEARCH => 8/10
  | .COMPETITIVE_INTELLIGENCE => 7/10

/-- The clamping of `LLM_CONFIDENCE_WEIGHT` at config load (`config.py`). -/
def clamp_llm_weight (raw : ℚ) : ℚ := max 0 (min 1 raw)

/-- The rule score computed by `_calculate_confidence` (no cap is applied to
    this value; the `min(…, 0.95)` in the source applies to the *final*
    confidence only). -/
def rule_confidence (scenario : ResearchScenario) (numSources enhancedCount : ℕ) : ℚ :=
  let source_boost := min ((numSources : ℚ) * (1/10)) (3/10)
  let enhanced_boost := min ((enhancedCount : ℚ) * (15/100)) (3/10)
  ((1 : ℚ)/2 + source_boost + enhanced_boost) * scenario_weight scenario

structure ConfidenceResult where
  confidence : ℚ
  rule_confidence : ℚ
  llm_confidence : Option ℚ
  jina_failed : Bool
deriving Repr, DecidableEq

/-- `_calculate_confidence`: `llmOutcome = some v` models
    `_llm_evaluate_confidence` returning `v`, `none` models it raising (the
    exception is caught and the rule score used).  `w` is the loaded
    `LLM_CONFIDENCE_WEIGHT`; `queryNonempty` and `numSources ≠ 0` gate the
    model call exactly as `query and sources` does. -/
def calculate_confidence (scenario : ResearchScenario)
    (numSources enhancedCount : ℕ) (enableLlm queryNonempty : Bool)
    (llmOutcome : Option ℚ) (w : ℚ) (jina_success_rate : ℚ) : ConfidenceResult :=
  let rule := rule_confidence scenario numSources enhancedCount
  let pr : ℚ × Option ℚ :=
    if enableLlm && queryNonempty && numSources != 0 then
      match llmOutcome with
      | some v => (rule * (1 - w) + v * w, some v)
      | none => (rule, none)
    else (rule, none)
  { confidence := min pr.1 (95/100)
    rule_confidence := rule
    llm_confidence := pr.2
    jina_failed := jina_success_rate == 0 && numSources != 0 }

/-- Modelled from the spec: the spec's formula for the rule score, with the
    `0.95` cap applied to the rule score itself — stated for comparison with
    the code's `rule_confidence`. -/
def rule_score_spec (scenario : ResearchScenario) (numSources enhancedCount : ℕ) : ℚ :=
  min (((1 : ℚ)/2 + min ((numSources : ℚ) * (1/10)) (3/10)
        + min ((enhancedCount : ℚ) * (15/100)) (3/10)) * scenario_weight scenario)
      (95/100)

/-! ## `synthesizer.py`: truncation policy -/

structure FocusEntry where
  findings : List String
  sources : List Source
  confidence : ℚ
deriving Repr, DecidableEq

/-- The snippet truncation of `truncate_findings` (cut at 200 characters,
    ellipsis appended). -/
def truncSynthSnippet : Option String → Option String
  | some s => if 200 < s.length then some (String.mk (s.toList.take 200) ++ "...") else some s
  | none => none

/-- One focus entry of the payload dict: at most 10 findings, at most 5
    sources, snippets truncated. -/
def mkFocusEntry (r : SubtaskResult) : FocusEntry :=
  { findings := r.findings.take 10
    sources := (r.sources.take 5).map fun s => { s with snippet := truncSynthSnippet s.snippet }
    confidence := r.confidence }

/-- Python dict insertion keyed by focus: a later result with the same focus
    overwrites the earlier entry in place. -/
def upsert (k : String) (v : FocusEntry) :
    List (String × FocusEntry) → List (String × FocusEntry)
  | [] => [(k, v)]
  | (k0, v0) :: rest => if k0 == k then (k0, v) :: rest else (k0, v0) :: upsert k v rest

/-- `truncate_findings` from `synthesizer.py`. -/
def truncate_findings (results : List SubtaskResult) : List (String × FocusEntry) :=
  results.foldl (fun acc r => upsert r.focus (mkFocusEntry r) acc) []

/-- The tightened caps applied on retry: 3 findings and 2 sources per focus. -/
def retruncate (fd : List (String × FocusEntry)) : List (String × FocusEntry) :=
  fd.map fun p => (p.1, { p.2 with findings := p.2.findings.take 3
                                   sources := p.2.sources.take 2 })

/-- The payload-size guard of `synthesize_results`: `serLen` is the length of
    the JSON serialization of the payload (external to the decision logic);
    the caps are tightened exactly when it *strictly* exceeds 20000. -/
def synthesize_payload (serLen : List (String × FocusEntry) → ℕ)
    (results : List SubtaskResult) : List (String × FocusEntry) :=
  let fd := truncate_findings results
  if 20000 < serLen fd then retruncate fd else fd

/-! ## Helper lemmas -/

/-- The post-processing override only ever emits `CONFIRM_PLAN` or
    `NEED_CLARIFICATION`. -/
theorem assess_post_cases (result : ClarifyResult) (plan : Plan) :
    (assess_post result plan).next_action = .CONFIRM_PLAN ∨
    (assess_post result plan).next_action = .NEED_CLARIFICATION := by
  unfold assess_post
  split_ifs <;> simp

/-- The override changes nothing but `next_action`. -/
theorem assess_post_clarification (result : ClarifyResult) (plan : Plan) :
    (assess_post result plan).clarification = plan.clarification := by
  unfold assess_post
  split_ifs <;> rfl

/-- `assess_input` is the override applied to `_convert_to_plan`'s output. -/
theorem assess_input_def (result : ClarifyResult) (d : TaskDraft) :
    assess_input result d = assess_post result (convert_to_plan result d) := rfl

/-- `_convert_to_plan` attaches `mkClarification` of the question list. -/
theorem convert_to_plan_clarification (result : ClarifyResult) (d : TaskDraft) :
    (convert_to_plan result d).clarification = mkClarification result.questions := rfl

/-- `_convert_to_plan` copies the model's confidence unchanged. -/
theorem convert_to_plan_confidence (result : ClarifyResult) (d : TaskDraft) :
    (convert_to_plan result d).confidence = result.confidence := rfl

/-- Branch selection in the override: everything that is neither a
    high-confidence `PROCEED` nor a mid-confidence `CONFIRM` is forced to
    `NEED_CLARIFICATION`. -/
theorem assess_post_not_confirm (result : ClarifyResult) (plan : Plan)
    (h1 : ¬(result.action = .PROCEED ∧ (95 : ℚ)/100 ≤ plan.confidence))
    (h2 : ¬(result.action = .PROCEED ∧ (7 : ℚ)/10 ≤ plan.confidence))
    (h3 : ¬(result.action = .CONFIRM ∧ (6 : ℚ)/10 ≤ plan.confidence)) :
    (assess_post result plan).next_action = .NEED_CLARIFICATION := by
  unfold assess_post
  rw [if_neg h1, if_neg h2, if_neg h3]
  split_ifs <;> rfl

/-- Branch selection in the override: a `PROCEED` at confidence ≥ 0.95 is
    still forced to `CONFIRM_PLAN` (the `START_RESEARCH` assignment is
    commented out in the source). -/
theorem assess_post_high_proceed (result : ClarifyResult) (plan : Plan)
    (h1 : result.action = .PROCEED) (h2 : (95 : ℚ)/100 ≤ plan.confidence) :
    (assess_post result plan).next_action = .CONFIRM_PLAN := by
  unfold assess_post
  rw [if_pos ⟨h1, h2⟩]

/-- When the plan's action is not `START_RESEARCH`, the research branch is
    skipped and no result is produced. -/
theorem runResearch_not_start (plan : Plan)
    (p : Except String (List RawSubtask)) (e : Subtask → Option SubtaskResult)
    (s : List SubtaskResult → ResearchResult)
    (h : plan.next_action ≠ .START_RESEARCH) :
    runResearch plan p e s = (plan, none) := by
  unfold runResearch
  rw [if_neg h]

/-- `Orchestrator.run`, zeta-reduced. -/
theorem orchestrator_run_def (r1 r2 : ClarifyResult) (d : TaskDraft) (v : Bool)
    (p : Except String (List RawSubtask)) (e : Subtask → Option SubtaskResult)
    (s : List SubtaskResult → ResearchResult) :
    Orchestrator.run r1 r2 d v p e s
      = (if (assess_input r1 d).next_action = .NEED_CLARIFICATION then
           (assess_input r1 d, none)
         else if (assess_input r1 d).next_action = .VERIFY_TOPIC then
           (if v then runResearch (assess_input r2 d) p e s
            else (assess_input r1 d, none))
         else runResearch (assess_input r1 d) p e s) := rfl

/-- When the assessed plan says `CONFIRM_PLAN`, `run` returns it with no
    research result. -/
theorem run_of_confirm (r1 r2 : ClarifyResult) (d : TaskDraft) (v : Bool)
    (p : Except String (List RawSubtask)) (e : Subtask → Option SubtaskResult)
    (s : List SubtaskResult → ResearchResult)
    (h : (assess_input r1 d).next_action = .CONFIRM_PLAN) :
    Orchestrator.run r1 r2 d v p e s = (assess_input r1 d, none) := by
  rw [orchestrator_run_def, if_neg (by simp [h]), if_neg (by simp [h]),
      runResearch_not_start _ p e s (by simp [h])]

/-- When the assessed plan says `NEED_CLARIFICATION`, `run` returns it with
    no research result. -/
theorem run_of_need (r1 r2 : ClarifyResult) (d : TaskDraft) (v : Bool)
    (p : Except String (List RawSubtask)) (e : Subtask → Option SubtaskResult)
    (s : List SubtaskResult → ResearchResult)
    (h : (assess_input r1 d).next_action = .NEED_CLARIFICATION) :
    Orchestrator.run r1 r2 d v p e s = (assess_input r1 d, none) := by
  rw [orchestrator_run_def, if_pos h]

/-! ## C10 -/

/-- C10: for every clarifier model reply — `PROCEED` at any confidence,
    `CONFIRM` at any confidence, `REJECT`, and unparseable output (which
    enters as `parse_failure_result`) — the `Plan` returned by `assess_input`
    has `next_action` equal to `CONFIRM_PLAN` or `NEED_CLARIFICATION`, and
    never `START_RESEARCH`, `VERIFY_TOPIC` or `CANNOT_DO`. -/
theorem c10_assess_input_actions (result : ClarifyResult) (d : TaskDraft) :
    ((assess_input result d).next_action = .CONFIRM_PLAN ∨
     (assess_input result d).next_action = .NEED_CLARIFICATION) ∧
    (assess_input result d).next_action ≠ .START_RESEARCH ∧
    (assess_input result d).next_action ≠ .VERIFY_TOPIC ∧
    (assess_input result d).next_action ≠ .CANNOT_DO := by
  rw [assess_input_def]
  rcases assess_post_cases result (convert_to_plan result d) with h | h <;>
    rw [h] <;> exact ⟨by simp, by simp, by simp, by simp⟩

/-! ## C5 -/

/-- The C5 counterexample reply: the model said `PROCEED` with confidence 0.5
    and, accordingly, asked no question. -/
def proceedLowNoQuestions : ClarifyResult :=
  { action := .PROCEED, confidence := 1/2 }

/-- C5 is false as stated: the post-processing override forces a low-confidence
    `PROCEED` reply into `NEED_CLARIFICATION`, yet the returned plan's
    `clarification` is null. -/
theorem c5_counterexample :
    (assess_input proceedLowNoQuestions {}).next_action = .NEED_CLARIFICATION ∧
    (assess_input proceedLowNoQuestions {}).clarification = none := by
  constructor
  · rw [assess_input_def]
    refine assess_post_not_confirm _ _ ?_ ?_ ?_ <;>
      · rw [convert_to_plan_confidence]
        rintro ⟨-, hc⟩
        norm_num [proceedLowNoQuestions] at hc
  · rw [assess_input_def, assess_post_clarification, convert_to_plan_clarification]
    rfl

/-- C5 amended: a plan returned by `assess_input` with
    `next_action = NEED_CLARIFICATION` carries a non-null `clarification`
    exactly when the model reply contained at least one question (the
    clarification then being built from the first question), and the
    parse-failure default always carries a non-empty question; a reply with
    no questions that the override forces to `NEED_CLARIFICATION` (such as
    `PROCEED` below 0.7 or `REJECT`) yields a null `clarification`. -/
theorem c5_amended :
    (∀ (r : ClarifyResult) (d : TaskDraft),
        (assess_input r d).next_action = .NEED_CLARIFICATION →
        (assess_input r d).clarification = mkClarification r.questions ∧
        ((assess_input r d).clarification.isSome ↔ r.questions ≠ [])) ∧
    (∀ (e : String) (d : TaskDraft), ∃ c,
        (assess_input (parse_failure_result e) d).clarification = some c ∧
        c.question ≠ "") := by
  have key : ∀ (r : ClarifyResult) (d : TaskDraft),
      (assess_input r d).clarification = mkClarification r.questions := by
    intro r d
    rw [assess_input_def, assess_post_clarification, convert_to_plan_clarification]
  refine ⟨fun r d _ => ⟨key r d, ?_⟩, fun e d => ?_⟩
  · rw [key r d]
    cases r.questions <;> simp [mkClarification]
  · rw [key (parse_failure_result e) d]
    exact ⟨_, rfl, by decide⟩

/-- Witness for the C5 amended theorem at a concrete `REJECT` reply carrying
    one question. -/
theorem c5_amended_witness :
    (assess_input { action := .REJECT, confidence := 0,
                    questions := [{ question := "which target?" }] } {}).clarification
      = mkClarification [{ question := "which target?" }] :=
  (c5_amended.1 _ {} (by decide)).1

/-! ## C1 -/

/-- The C1 counterexample reply: after the user's "ok start", the clarifier
    model replies `PROCEED` with full confidence on a concrete goal. -/
def okStartReply : ClarifyResult :=
  { action := .PROCEED
    confidence := 1
    parsed_intent := { subject := "KRAS G12C", action := "research progress" } }

/-- A worker oracle that always succeeds. -/
def alwaysResult : Subtask → Option SubtaskResult := fun st =>
  some { subtask_id := st.id, focus := st.focus
         findings := ["found"], sources := [], confidence := 9/10 }

/-- C1 is false as stated: even with a full-confidence `PROCEED` reply, a
    planner that returns a valid subtask, workers that all succeed and a
    synthesizer that succeeds, `Orchestrator.run` returns no `ResearchResult`
    — its plan is forced to `CONFIRM_PLAN`, so the `START_RESEARCH` branch is
    never entered. -/
theorem c1_counterexample :
    (Orchestrator.run okStartReply okStartReply {} true
        (.ok [{ focus := some "KRAS G12C inhibitors", queries := some ["kras"] }])
        alwaysResult (fun _ => { goal := "g", research_focus := [] })).2 = none ∧
    (Orchestrator.run okStartReply okStartReply {} true
        (.ok [{ focus := some "KRAS G12C inhibitors", queries := some ["kras"] }])
        alwaysResult (fun _ => { goal := "g", research_focus := [] })).1.next_action
      = .CONFIRM_PLAN := by
  have h : (assess_input okStartReply {}).next_action = .CONFIRM_PLAN := by
    rw [assess_input_def]
    exact assess_post_high_proceed _ _ rfl
      (by rw [convert_to_plan_confidence]; norm_num [okStartReply])
  rw [run_of_confirm _ _ _ _ _ _ _ h]
  exact ⟨rfl, h⟩

/-- C1 amended: for every clarifier reply (and every planner, worker and
    synthesizer behaviour), `Orchestrator.run` returns the assessed plan —
    forced to `CONFIRM_PLAN` or `NEED_CLARIFICATION` by the clarifier's
    post-processing — together with no `ResearchResult`: the
    `START_RESEARCH` branch is unreachable through `assess_input`. -/
theorem c1_amended (r1 r2 : ClarifyResult) (d : TaskDraft) (v : Bool)
    (p : Except String (List RawSubtask)) (e : Subtask → Option SubtaskResult)
    (s : List SubtaskResult → ResearchResult) :
    (Orchestrator.run r1 r2 d v p e s).2 = none ∧
    ((Orchestrator.run r1 r2 d v p e s).1.next_action = .CONFIRM_PLAN ∨
     (Orchestrator.run r1 r2 d v p e s).1.next_action = .NEED_CLARIFICATION) := by
  have hc := assess_post_cases r1 (convert_to_plan r1 d)
  rw [← assess_input_def] at hc
  rcases hc with h | h
  · rw [run_of_confirm r1 r2 d v p e s h]
    exact ⟨rfl, Or.inl h⟩
  · rw [run_of_need r1 r2 d v p e s h]
    exact ⟨rfl, Or.inr h⟩

/-! ## C7 -/

/-- A task with four research-focus entries, for the C7 counterexample. -/
def fourFocusTask : Task := { goal := "G", research_focus := ["a", "b", "c", "d"] }

/-- C7 is false as stated: with four `research_focus` entries and a planner
    that returned zero subtasks, the fallback creates three subtasks — one
    per entry of `research_focus[:3]` only — and `decompose_task` performs no
    validation at all: a subtask with an empty focus and no queries is passed
    through rather than triggering the fallback. -/
theorem c7_counterexample :
    (fallbackSubtasks fourFocusTask).length = 3 ∧
    fourFocusTask.research_focus.length = 4 ∧
    decompose_task (.ok [{}]) =
      .ok [{ id := 1, focus := "", queries := [], parallel := true }] := by
  refine ⟨rfl, rfl, rfl⟩

/-! ## C4 -/

/-- The batch loop is the identity fan-out: each batch maps the outcome over
    its slice and concatenation restores the input order. -/
theorem execBatches_eq_map (outcome : Subtask → Option SubtaskResult) (n : ℕ) :
    ∀ (k : ℕ) (l : List Subtask), l.length ≤ k →
      execBatches outcome (n + 1) l = l.map outcome := by
  intro k
  induction k with
  | zero =>
    intro l hl
    have : l = [] := List.eq_nil_of_length_eq_zero (Nat.le_zero.mp hl)
    subst this
    rw [execBatches]
    rfl
  | succ k ih =>
    intro l hl
    match l with
    | [] =>
      rw [execBatches]
      rfl
    | s :: rest =>
      rw [execBatches, ih ((s :: rest).drop (n + 1)) ?_,
          ← List.map_append, List.take_append_drop]
      simp only [List.length_drop, List.length_cons]
      simp only [List.length_cons] at hl
      omega

/-- C4: `execute_parallel` returns one slot per input subtask, position `i`
    holding subtask `i`'s result, or `None` exactly when that subtask's
    worker raised; a failure neither removes nor reorders nor cancels any
    peer — in the single-batch case and the batched case alike. -/
theorem c4_pool_positional (outcome : Subtask → Option SubtaskResult)
    (subtasks : List Subtask) (max_parallel : ℕ) (hmp : 1 ≤ max_parallel) :
    execute_parallel outcome subtasks max_parallel = subtasks.map outcome ∧
    (execute_parallel outcome subtasks max_parallel).length = subtasks.length ∧
    ∀ i : ℕ, (execute_parallel outcome subtasks max_parallel)[i]?
        = (subtasks[i]?).map outcome := by
  have hmain : execute_parallel outcome subtasks max_parallel
      = subtasks.map outcome := by
    rw [show execute_parallel outcome subtasks max_parallel
        = (if subtasks.isEmpty then []
           else if min subtasks.length max_parallel < subtasks.length then
             execBatches outcome (min subtasks.length max_parallel) subtasks
           else subtasks.map outcome) from rfl]
    split_ifs with h0 h1
    · rw [List.isEmpty_iff.mp h0]
      rfl
    · have hm : min subtasks.length max_parallel = (max_parallel - 1) + 1 := by
        omega
      rw [hm]
      exact execBatches_eq_map outcome (max_parallel - 1) subtasks.length subtasks le_rfl
    · rfl
  refine ⟨hmain, ?_, ?_⟩
  · rw [hmain, List.length_map]
  · intro i
    rw [hmain, List.getElem?_map]

/-- A worker oracle for the C4 witness: the second worker raises. -/
def secondFails : Subtask → Option SubtaskResult := fun st =>
  if st.id = 2 then none
  else some { subtask_id := st.id, focus := st.focus
              findings := [], sources := [], confidence := 0 }

/-- Witness for C4 at three subtasks with pool width 2 (the batched case). -/
theorem c4_pool_positional_witness :
    execute_parallel secondFails
        [{ id := 1, focus := "a", queries := [] },
         { id := 2, focus := "b", queries := [] },
         { id := 3, focus := "c", queries := [] }] 2
      = [{ id := 1, focus := "a", queries := [] },
         { id := 2, focus := "b", queries := [] },
         { id := 3, focus := "c", queries := [] }].map secondFails :=
  (c4_pool_positional secondFails _ 2 (by norm_num)).1

/-! ## C3 -/

/-- C3 is false as stated: an exception raised while constructing the
    per-task agent escapes `Subagent.search` to its caller — the
    `_create_agent` call sits above the `try` block. -/
theorem c3_counterexample :
    (Subagent.search { id := 1, focus := "cell therapy", queries := ["q"] }
        (.constructError "KeyError")).isOk = false := rfl

/-- C3 amended: every failure path *inside the agent run* (soft-exit
    cancellation, hard timeout, max turns, tool or run error, JSON-parse
    failure) produces a well-formed `SubtaskResult` with confidence in
    `[0, 0.5]` carrying the subtask's id and focus; only an exception during
    per-task agent construction propagates to the caller (where the pool
    converts it to a `None` slot). -/
theorem c3_amended (st : Subtask) (o : AgentRunOutcome)
    (hc : ∀ msg, o ≠ .constructError msg)
    (hf : ∀ data, o ≠ .finished data) :
    ∃ r, Subagent.search st o = .ok r ∧
      0 ≤ r.confidence ∧ r.confidence ≤ 1/2 ∧
      r.subtask_id = st.id ∧ r.focus = st.focus := by
  cases o with
  | constructError m => exact absurd rfl (hc m)
  | finished data => exact absurd rfl (hf data)
  | softExit => exact ⟨_, rfl, by norm_num, by norm_num, rfl, rfl⟩
  | hardTimeout => exact ⟨_, rfl, by norm_num, by norm_num, rfl, rfl⟩
  | maxTurns => exact ⟨_, rfl, by norm_num, by norm_num, rfl, rfl⟩
  | runError m => exact ⟨_, rfl, by norm_num, by norm_num, rfl, rfl⟩
  | parseError p => exact ⟨_, rfl, by norm_num, by norm_num, rfl, rfl⟩

/-- Witness for the C3 amended theorem on the soft-exit path. -/
theorem c3_amended_witness :
    ∃ r, Subagent.search { id := 1, focus := "f", queries := ["q"] } .softExit
        = .ok r ∧
      0 ≤ r.confidence ∧ r.confidence ≤ 1/2 ∧ r.subtask_id = 1 ∧ r.focus = "f" :=
  c3_amended { id := 1, focus := "f", queries := ["q"] } .softExit
    (fun _ h => by cases h) (fun _ h => by cases h)

/-! ## C2 -/

/-- C2: the `min(0, …)` computed in every `max_results` tier empties the
    deep-fetch target list — for all inputs, `jina_targets` is `[]` — even
    though `should_use_jina` does produce a priority-5 candidate for a
    high-value domain such as `nature.com` (so the truncation, not the
    candidate selection, is what discards it).  This contradicts the inline
    comments announcing caps of 3/3/5. -/
theorem c2_jina_targets_empty :
    (∀ (q : String) (results : List SearchHit) (m : ℕ),
        (create_research_plan q results m).jina_targets = []) ∧
    (should_use_jina (detect_scenario "kras inhibitors")
        "https://www.nature.com/articles/s41586" "title" "snip").priority = 5 ∧
    (should_use_jina (detect_scenario "kras inhibitors")
        "https://www.nature.com/articles/s41586" "title" "snip").use = true := by
  refine ⟨?_, by decide, by decide⟩
  intro q results m
  unfold create_research_plan
  split_ifs <;> simp

/-! ## C6 -/

/-- C6 is false as stated: the 0.95 cap is applied to the *final* confidence,
    not to the rule score.  For `CLINICAL_PIPELINE` (weight 0.9) with 3
    sources and 2 deep-fetch successes the code's rule score is 0.99, while
    the claim's capped formula gives 0.95; with model scoring enabled
    (model = 1, w = 1/2) the code's final confidence is min(0.99·0.5 + 0.5,
    0.95) = 0.95, while the claim's formula gives 0.95·0.5 + 0.5 = 0.975. -/
theorem c6_counterexample :
    (calculate_confidence .CLINICAL_PIPELINE 3 2 false true none (2/5) 1).rule_confidence
      = 99/100 ∧
    rule_score_spec .CLINICAL_PIPELINE 3 2 = 95/100 ∧
    ((99 : ℚ)/100 = 95/100 → False) ∧
    (calculate_confidence .CLINICAL_PIPELINE 3 2 true true (some 1) (1/2) 1).confidence
      = 95/100 ∧
    rule_score_spec .CLINICAL_PIPELINE 3 2 * (1 - 1/2) + 1 * (1/2) = 39/40 ∧
    ((95 : ℚ)/100 = 39/40 → False) := by
  refine ⟨?_, ?_, by norm_num, ?_, ?_, by norm_num⟩
  · show rule_confidence .CLINICAL_PIPELINE 3 2 = 99/100
    rw [rule_confidence, scenario_weight]
    norm_num [min_def]
  · rw [rule_score_spec, scenario_weight]
    norm_num [min_def]
  · rw [show (calculate_confidence .CLINICAL_PIPELINE 3 2 true true (some 1) (1/2) 1).confidence
        = min (rule_confidence .CLINICAL_PIPELINE 3 2 * (1 - 1/2) + 1 * (1/2)) (95/100)
        from rfl,
      rule_confidence, scenario_weight]
    norm_num [min_def]
  · rw [rule_score_spec, scenario_weight]
    norm_num [min_def]

/-- C6 amended: the rule score is
    `(0.5 + min(0.1·s, 0.3) + min(0.15·d, 0.3)) · scenario_weight` — uncapped
    — with per-scenario weights in `[0.7, 0.9]`; `LLM_CONFIDENCE_WEIGHT` is
    clamped to `[0, 1]` at config load; with model scoring enabled and the
    model call succeeding, the final confidence is
    `min(rule·(1-w) + model·w, 0.95)`; when the model call fails (or scoring
    is disabled) the final confidence is `min(rule, 0.95)`. -/
theorem c6_amended (scenario : ResearchScenario) (s d : ℕ) (en qn : Bool)
    (v w raw jr : ℚ) :
    ((7 : ℚ)/10 ≤ scenario_weight scenario ∧ scenario_weight scenario ≤ 9/10) ∧
    (0 ≤ clamp_llm_weight raw ∧ clamp_llm_weight raw ≤ 1) ∧
    rule_confidence scenario s d
      = ((1 : ℚ)/2 + min ((s : ℚ) * (1/10)) (3/10)
          + min ((d : ℚ) * (15/100)) (3/10)) * scenario_weight scenario ∧
    (en = true → qn = true → s ≠ 0 →
      (calculate_confidence scenario s d en qn (some v) w jr).confidence
        = min (rule_confidence scenario s d * (1 - w) + v * w) (95/100)) ∧
    (calculate_confidence scenario s d en qn none w jr).confidence
      = min (rule_confidence scenario s d) (95/100) := by
  refine ⟨?_, ?_, rfl, ?_, ?_⟩
  · cases scenario <;> norm_num [scenario_weight]
  · exact ⟨le_max_left _ _,
      max_le (by norm_num) (min_le_left _ _)⟩
  · intro hen hqn hs
    subst hen
    subst hqn
    have hcond : (true && true && (s != 0)) = true := by simp [bne_iff_ne, hs]
    unfold calculate_confidence
    simp only [hcond, if_true]
  · unfold calculate_confidence
    split_ifs <;> rfl

/-- Witness for the C6 amended theorem with model scoring enabled. -/
theorem c6_amended_witness :
    (calculate_confidence .ACADEMIC_RESEARCH 1 0 true true (some (1/2)) (2/5) 1).confidence
      = min (rule_confidence .ACADEMIC_RESEARCH 1 0 * (1 - 2/5) + (1/2) * (2/5)) (95/100) :=
  (c6_amended .ACADEMIC_RESEARCH 1 0 true true (1/2) (2/5) (3/2) 1).2.2.2.1
    rfl rfl (by norm_num)

/-! ## C8 -/

/-- An entry of `upsert k v l` is either `(k, v)` or an entry of `l`. -/
theorem mem_upsert (k : String) (v : FocusEntry) (l : List (String × FocusEntry))
    (p : String × FocusEntry) (h : p ∈ upsert k v l) : p = (k, v) ∨ p ∈ l := by
  induction l with
  | nil => simpa [upsert] using h
  | cons hd tl ih =>
    rw [upsert] at h
    by_cases hk : hd.1 == k
    · rw [if_pos hk] at h
      rcases List.mem_cons.mp h with h' | h'
      · subst h'
        by_cases hv : (hd.1, v) = (k, v)
        · exact Or.inl hv
        · exact Or.inr (by
            have : hd.1 = k := by simpa using hk
            exact absurd (by rw [this]) hv)
      · exact Or.inr (List.mem_cons_of_mem _ h')
  -- the `==` test failed: the head is kept and the tail is updated
    · rw [if_neg hk] at h
      rcases List.mem_cons.mp h with h' | h'
      · exact Or.inr (h' ▸ List.mem_cons_self _ _)
      · rcases ih h' with h'' | h''
        · exact Or.inl h''
        · exact Or.inr (List.mem_cons_of_mem _ h'')

/-- Every entry accumulated by the `truncate_findings` fold comes from the
    accumulator or from some input result. -/
theorem mem_fold_upsert (l : List SubtaskResult) (acc : List (String × FocusEntry))
    (p : String × FocusEntry)
    (h : p ∈ l.foldl (fun a r => upsert r.focus (mkFocusEntry r) a) acc) :
    p ∈ acc ∨ ∃ r ∈ l, p = (r.focus, mkFocusEntry r) := by
  induction l generalizing acc with
  | nil => exact Or.inl h
  | cons hd tl ih =>
    rcases ih _ h with h' | ⟨r, hr, hp⟩
    · rcases mem_upsert _ _ _ _ h' with h'' | h''
      · exact Or.inr ⟨hd, List.mem_cons_self _ _, h''⟩
      · exact Or.inl h''
    · exact Or.inr ⟨r, List.mem_cons_of_mem _ hr, hp⟩

/-- The per-entry caps of `mkFocusEntry`: at most 10 findings, at most 5
    sources, and every present snippet cut at 200 characters (so at most 203
    with the appended ellipsis). -/
theorem mkFocusEntry_caps (r : SubtaskResult) :
    (mkFocusEntry r).findings.length ≤ 10 ∧
    (mkFocusEntry r).sources.length ≤ 5 ∧
    ∀ src ∈ (mkFocusEntry r).sources, ∀ s, src.snippet = some s → s.length ≤ 203 := by
  refine ⟨List.length_take_le _ _, ?_, ?_⟩
  · rw [mkFocusEntry]
    simp only [List.length_map]
    exact List.length_take_le _ _
  · intro src hsrc s hs
    rw [mkFocusEntry] at hsrc
    simp only [List.mem_map] at hsrc
    obtain ⟨orig, -, horig⟩ := hsrc
    subst horig
    simp only at hs
    cases horigsnip : orig.snippet with
    | none => rw [horigsnip] at hs; simp [truncSynthSnippet] at hs
    | some s0 =>
      rw [horigsnip] at hs
      rw [truncSynthSnippet] at hs
      by_cases hlen : 200 < s0.length
      · rw [if_pos hlen] at hs
        obtain rfl : String.mk (s0.toList.take 200) ++ "..." = s := by
          simpa using hs
        rw [String.length_append]
        have h1 : (String.mk (s0.toList.take 200)).length ≤ 200 := by
          show (s0.toList.take 200).length ≤ 200
          exact List.length_take_le _ _
        have h2 : ("..." : String).length = 3 := rfl
        omega
      · rw [if_neg hlen] at hs
        obtain rfl : s0 = s := by simpa using hs
        omega

/-- C8: `synthesize_results` truncates each focus to at most 10 findings and
    5 sources with snippets cut at 200 characters; it re-truncates to caps
    (3, 2) exactly when the serialized payload strictly exceeds 20000
    characters — a payload of exactly 20000 characters triggers no retry. -/
theorem c8_truncation_policy (results : List SubtaskResult)
    (serLen : List (String × FocusEntry) → ℕ) :
    (∀ p ∈ truncate_findings results,
        p.2.findings.length ≤ 10 ∧ p.2.sources.length ≤ 5 ∧
        ∀ src ∈ p.2.sources, ∀ s, src.snippet = some s → s.length ≤ 203) ∧
    (20000 < serLen (truncate_findings results) →
        synthesize_payload serLen results = retruncate (truncate_findings results) ∧
        ∀ p ∈ retruncate (truncate_findings results),
          p.2.findings.length ≤ 3 ∧ p.2.sources.length ≤ 2) ∧
    (serLen (truncate_findings results) ≤ 20000 →
        synthesize_payload serLen results = truncate_findings results) ∧
    synthesize_payload (fun _ => 20000) results = truncate_findings results := by
  have hmem : ∀ p ∈ truncate_findings results,
      ∃ r ∈ results, p = (r.focus, mkFocusEntry r) := by
    intro p hp
    rcases mem_fold_upsert results [] p hp with h | h
    · simp at h
    · exact h
  refine ⟨?_, ?_, ?_, ?_⟩
  · intro p hp
    obtain ⟨r, -, rfl⟩ := hmem p hp
    exact mkFocusEntry_caps r
  · intro hgt
    refine ⟨by rw [synthesize_payload, if_pos hgt], ?_⟩
    intro p hp
    rw [retruncate] at hp
    simp only [List.mem_map] at hp
    obtain ⟨q, -, rfl⟩ := hp
    exact ⟨List.length_take_le _ _, List.length_take_le _ _⟩
  · intro hle
    rw [synthesize_payload, if_neg (by omega)]
  · rw [synthesize_payload, if_neg (by omega)]

/-- Witness for C8: one result, a serializer reporting 20001 characters —
    the tightened caps are applied. -/
theorem c8_truncation_policy_witness :
    synthesize_payload (fun _ => 20001)
        [{ subtask_id := 1, focus := "f", findings := ["a"], sources := []
           confidence := 0 }]
      = retruncate (truncate_findings
          [{ subtask_id := 1, focus := "f", findings := ["a"], sources := []
             confidence := 0 }]) :=
  ((c8_truncation_policy _ (fun _ => 20001)).2.1 (by norm_num)).1

/-- The fallback comprehension yields one subtask per focus entry passed in. -/
theorem fallbackAux_length (goal : String) :
    ∀ (i : ℕ) (l : List String), (fallbackAux goal i l).length = l.length := by
  intro i l
  induction l generalizing i with
  | nil => rfl
  | cons hd tl ih => simp [fallbackAux, ih]

/-- Every fallback subtask carries the single query `"{goal} {focus}"` for a
    focus drawn from the list passed in. -/
theorem fallbackAux_mem (goal : String) :
    ∀ (i : ℕ) (l : List String), ∀ st ∈ fallbackAux goal i l,
      st.queries = [goal ++ " " ++ st.focus] ∧ st.focus ∈ l := by
  intro i l
  induction l generalizing i with
  | nil => intro st hst; simp [fallbackAux] at hst
  | cons hd tl ih =>
    intro st hst
    rw [fallbackAux] at hst
    rcases List.mem_cons.mp hst with h | h
    · subst h
      exact ⟨rfl, List.mem_cons_self _ _⟩
    · obtain ⟨hq, hf⟩ := ih (i + 1) st h
      exact ⟨hq, List.mem_cons_of_mem _ hf⟩

/-- The subtask list built by `decompose_task` has one entry per parsed
    planner entry (nothing is validated away). -/
theorem decompose_fold_length (raws : List RawSubtask) :
    ∀ acc : List Subtask,
      (raws.foldl
        (fun acc st =>
          acc ++ [{ id := st.id.getD ((acc.length : Int) + 1)
                    focus := st.focus.getD ""
                    queries := st.queries.getD []
                    parallel := true }]) acc).length
      = acc.length + raws.length := by
  induction raws with
  | nil => intro acc; simp
  | cons hd tl ih =>
    intro acc
    rw [List.foldl_cons, ih]
    simp
    omega

/-- C7 amended: a planner JSON-parse failure makes `Orchestrator.run` return
    the plan with no result (no fallback); when the planner returns zero
    subtasks the fallback creates one subtask per entry of the *first three*
    `research_focus` entries, each with the single query `"{goal} {focus}"`;
    and subtasks that would fail the spec's validation (empty focus, no
    queries) are passed through by `decompose_task` unvalidated. -/
theorem c7_amended (plan : Plan) (msg : String) (raws : List RawSubtask)
    (e : Subtask → Option SubtaskResult) (s : List SubtaskResult → ResearchResult)
    (task : Task) :
    runResearch plan (.error msg) e s = (plan, none) ∧
    decompose_task (Except.ok ([] : List RawSubtask)) = .ok [] ∧
    (fallbackSubtasks task).length = min 3 task.research_focus.length ∧
    (∀ st ∈ fallbackSubtasks task,
        st.queries = [task.goal ++ " " ++ st.focus] ∧
        st.focus ∈ task.research_focus) ∧
    ∃ l, decompose_task (.ok raws) = .ok l ∧ l.length = raws.length := by
  refine ⟨?_, rfl, ?_, ?_, ?_⟩
  · unfold runResearch
    split_ifs <;> rfl
  · rw [fallbackSubtasks, fallbackAux_length, List.length_take]
  · intro st hst
    obtain ⟨hq, hf⟩ := fallbackAux_mem task.goal 0 _ st hst
    exact ⟨hq, List.mem_of_mem_take hf⟩
  · exact ⟨_, rfl, by simpa using decompose_fold_length raws []⟩

/-- Witness for the C7 amended theorem on the four-focus task. -/
theorem c7_amended_witness :
    ({ id := 1, focus := "a", queries := ["G a"], parallel := true } : Subtask).queries
        = [fourFocusTask.goal ++ " "
            ++ ({ id := 1, focus := "a", queries := ["G a"], parallel := true } : Subtask).focus] ∧
    ({ id := 1, focus := "a", queries := ["G a"], parallel := true } : Subtask).focus
        ∈ fourFocusTask.research_focus :=
  (c7_amended { next_action := .CONFIRM_PLAN } "not json" [] (fun _ => none)
      (fun _ => { goal := "", research_focus := [] }) fourFocusTask).2.2.2.1
    { id := 1, focus := "a", queries := ["G a"], parallel := true } (by decide)

/-! ## C9 -/

/-- `is_valid_source_url` with its `let`s and branch order spelled out. -/
theorem is_valid_source_url_def (url0 : String) :
    is_valid_source_url url0
      = (if !(strStarts (pyStrip url0) "http://"
              || strStarts (pyStrip url0) "https://") then false
         else if placeholder_patterns.any
             (fun pat => strSub (strLower (pyStrip url0)) pat) then false
         else if hasDollarDigit (pyStrip url0).toList then false
         else if (urlNetloc (pyStrip url0)).isEmpty
             || !((urlNetloc (pyStrip url0)).contains '.') then false
         else if incomplete_endings.any
             (fun e => chEnds (urlPath (pyStrip url0)) e) then false
         else if chSub "pmc.ncbi.nlm.nih.gov".toList
               ((urlNetloc (pyStrip url0)).map Char.toLower)
             && !hasPmcId (urlPath (pyStrip url0)) then false
         else if chSub "pubmed.ncbi.nlm.nih.gov".toList
               ((urlNetloc (pyStrip url0)).map Char.toLower)
             && !hasSlashDigit (urlPath (pyStrip url0)) then false
         else if chSub "doi.org".toList ((urlNetloc (pyStrip url0)).map Char.toLower)
             && !hasDoiPattern (pyStrip url0).toList then false
         else if chSub "arxiv.org".toList ((urlNetloc (pyStrip url0)).map Char.toLower)
             && !hasArxivId (urlPath (pyStrip url0)) then false
         else
           match (pathParts (urlPath (pyStrip url0))).getLast? with
           | some lastPart =>
               !(directory_names.any fun d => lastPart.map Char.toLower == d.toList)
           | none => true) := rfl

/-- C9: a URL accepted by `is_valid_source_url` starts with `http://` or
    `https://`, has a dot-containing host, contains none of the placeholder
    tokens nor a `\$\d+` match, does not end in a bare directory path
    (`/articles`, `/doi`, … from `incomplete_endings`, nor a final `search`,
    `results`, `list`, `index`, `home`, `articles`, `papers` component), and
    satisfies the host-specific identifier rules; and it rejects
    `"https://pmc.ncbi.nlm.nih.gov/articles/"`. -/
theorem c9_url_necessary_conditions :
    (∀ url0 : String, is_valid_source_url url0 = true →
      (strStarts (pyStrip url0) "http://" || strStarts (pyStrip url0) "https://") = true ∧
      (urlNetloc (pyStrip url0)).contains '.' = true ∧
      (placeholder_patterns.any fun pat => strSub (strLower (pyStrip url0)) pat) = false ∧
      hasDollarDigit (pyStrip url0).toList = false ∧
      (incomplete_endings.any fun e => chEnds (urlPath (pyStrip url0)) e) = false ∧
      (∀ lp, (pathParts (urlPath (pyStrip url0))).getLast? = some lp →
          (directory_names.any fun d => lp.map Char.toLower == d.toList) = false) ∧
      (chSub "pmc.ncbi.nlm.nih.gov".toList ((urlNetloc (pyStrip url0)).map Char.toLower)
          = true → hasPmcId (urlPath (pyStrip url0)) = true) ∧
      (chSub "pubmed.ncbi.nlm.nih.gov".toList ((urlNetloc (pyStrip url0)).map Char.toLower)
          = true → hasSlashDigit (urlPath (pyStrip url0)) = true) ∧
      (chSub "doi.org".toList ((urlNetloc (pyStrip url0)).map Char.toLower)
          = true → hasDoiPattern (pyStrip url0).toList = true) ∧
      (chSub "arxiv.org".toList ((urlNetloc (pyStrip url0)).map Char.toLower)
          = true → hasArxivId (urlPath (pyStrip url0)) = true)) ∧
    is_valid_source_url "https://pmc.ncbi.nlm.nih.gov/articles/" = false := by
  constructor
  · intro url0 h
    rw [is_valid_source_url_def] at h
    split_ifs at h with h1 h2 h3 h4 h5 h6 h7 h8 h9
    simp only [Bool.not_eq_true, Bool.not_eq_false, Bool.or_eq_true, Bool.not_eq_true',
      Bool.and_eq_true, not_and, not_or] at h1 h2 h3 h4 h5 h6 h7 h8 h9
    refine ⟨by simp only [Bool.or_eq_true]; exact h1, h4.2, by simpa using h2,
      by simpa using h3, by simpa using h5, ?_, ?_, ?_, ?_, ?_⟩
    · intro lp hlp
      rw [hlp] at h
      simpa using h
    · intro hc
      have := h6 hc
      simpa using this
    · intro hc
      have := h7 hc
      simpa using this
    · intro hc
      have := h8 hc
      simpa using this
    · intro hc
      have := h9 hc
      simpa using this
  · decide

/-- Witness for C9 at a concrete accepted PubMed Central URL. -/
theorem c9_url_necessary_conditions_witness :
    hasPmcId (urlPath (pyStrip "https://pmc.ncbi.nlm.nih.gov/articles/PMC1234567/"))
      = true :=
  ((c9_url_necessary_conditions.1 "https://pmc.ncbi.nlm.nih.gov/articles/PMC1234567/"
      (by decide)).2.2.2.2.2.2.1) (by decide)

end ClarifyAgent
